import Mathlib

/-!
Shallow embedding of `rasterio/mask.py`: the functions `raster_geom_mask`
and `mask`, together with the data model they operate on.

Pixel values are modelled as integers, affine coefficients as rationals.
The collaborators the module consumes from outside (`geometry_window`,
`geometry_mask`, and the raster's own `read`) are modelled as abstract
function-valued parameters, following the contracts of the spec; everything
that lives in `mask.py` itself is translated definition by definition.
-/

namespace Rasterio

/-- Affine transform with six coefficients `a b c d e f`, mapping pixel
`(col, row)` to world coordinates `(a*col + b*row + c, d*col + e*row + f)`.
The sign of `e` encodes north-up vs. south-up orientation. -/
structure Affine where
  a : ℚ
  b : ℚ
  c : ℚ
  d : ℚ
  e : ℚ
  f : ℚ
deriving DecidableEq, Repr

/-- Rectangular pixel window of a raster: column/row offset and width/height,
as produced by `geometry_window` (already intersected with the raster, hence
nonnegative integer fields). -/
structure Window where
  col_off : Nat
  row_off : Nat
  width : Nat
  height : Nat
deriving DecidableEq, Repr

/-- Translation of `Window.flatten()`: the tuple
`(col_off, row_off, width, height)`. The all-zero tuple is the degenerate
sentinel meaning the shapes do not overlap the raster. -/
def Window.flatten (w : Window) : Nat × Nat × Nat × Nat :=
  (w.col_off, w.row_off, w.width, w.height)

/-- Raster data source: the read-only view `raster_geom_mask` and `mask`
consume. `read w` models `raster.read(window=w, out_shape=..., masked=True)`:
it yields the pixel data (band, row, col) and the source's own invalid-pixel
(nodata) mask for the requested window, or for the full extent when the
window is `none`. It is an external collaborator, so it is kept abstract. -/
structure Raster where
  height : Nat
  width : Nat
  count : Nat
  nodata : Option Int
  transform : Affine
  read : Option Window → (Nat → Nat → Nat → Int) × (Nat → Nat → Nat → Bool)

/-- Translation of `raster.window_transform(window)`: the raster's native
transform composed with the translation by the window's pixel offset, i.e.
the window's pixel offset mapped through the native transform. -/
def Raster.window_transform (raster : Raster) (w : Window) : Affine :=
  { raster.transform with
    c := raster.transform.a * (w.col_off : ℚ) + raster.transform.b * (w.row_off : ℚ)
         + raster.transform.c
    f := raster.transform.d * (w.col_off : ℚ) + raster.transform.e * (w.row_off : ℚ)
         + raster.transform.f }

/-- The two collaborators imported from `rasterio.features`, abstract over the
shape representation `σ`:
`geometry_window raster shapes north_up pad_x pad_y` returns the candidate
pixel window (the degenerate all-zero window when there is no overlap);
`geometry_mask shapes transform invert out_shape all_touched` rasterizes the
shapes into a boolean grid of the given shape. -/
structure Capabilities (σ : Type) where
  geometry_window : Raster → σ → Bool → ℚ → ℚ → Window
  geometry_mask : σ → Affine → Bool → Nat × Nat → Bool → (Nat → Nat → Bool)

/-- Errors raised by `raster_geom_mask`: `cropInvert` models
`ValueError("crop and invert cannot both be True.")` and `noOverlap` models
`ValueError("Input shapes do not overlap raster.")`. -/
inductive MaskError where
  | cropInvert
  | noOverlap
deriving DecidableEq, Repr

/-- Result of a successful `raster_geom_mask` call: boolean mask (with its
shape `(height, width)` recorded separately), output transform, optional
window, and whether the non-fatal overlap warning was emitted. -/
structure GeomMaskResult where
  mask : Nat → Nat → Bool
  maskShape : Nat × Nat
  transform : Affine
  window : Option Window
  warned : Bool

/-- Horizontal padding handed to `geometry_window`: half a pixel when both
`crop` and `pad` are set, zero otherwise. -/
def padX (crop pad : Bool) : ℚ :=
  if crop && pad then 1/2 else 0

/-- Vertical padding handed to `geometry_window`: half a pixel when both
`crop` and `pad` are set, zero otherwise. -/
def padY (crop pad : Bool) : ℚ :=
  if crop && pad then 1/2 else 0

/-- Translation of `raster_geom_mask` from `rasterio/mask.py`. -/
def raster_geom_mask {σ : Type} (caps : Capabilities σ) (raster : Raster) (shapes : σ)
    (all_touched invert crop pad : Bool) : Except MaskError GeomMaskResult :=
  if crop && invert then
    .error .cropInvert
  else
    let north_up : Bool := decide (raster.transform.e ≤ 0)
    let window := caps.geometry_window raster shapes north_up (padX crop pad) (padY crop pad)
    if window.flatten = (0, 0, 0, 0) then
      if crop then
        .error .noOverlap
      else
        .ok ⟨fun _ _ => !invert, (raster.height, raster.width), raster.transform, none, true⟩
    else
      if crop then
        let transform := raster.window_transform window
        let out_shape := (window.height, window.width)
        .ok ⟨caps.geometry_mask shapes transform invert out_shape all_touched,
             out_shape, transform, some window, false⟩
      else
        let transform := raster.transform
        let out_shape := (raster.height, raster.width)
        .ok ⟨caps.geometry_mask shapes transform invert out_shape all_touched,
             out_shape, transform, none, false⟩

/-- Effective nodata value used by `mask`: the caller-supplied value if any,
else the raster's own nodata if any, else zero. -/
def effectiveNodata (nodata : Option Int) (rasterNodata : Option Int) : Int :=
  match nodata with
  | some v => v
  | none =>
    match rasterNodata with
    | some v => v
    | none => 0

/-- Output pixel data of `mask`: either a plain filled array, or a
masked array, i.e. pixel data paired with the composed exclusion mask. -/
inductive MaskData where
  | filledData : (Nat → Nat → Nat → Int) → MaskData
  | maskedData : (Nat → Nat → Nat → Int) → (Nat → Nat → Nat → Bool) → MaskData

/-- Result of a successful `mask` call: output shape
`(count, height, width)`, pixel data, transform, and the warning flag
propagated from `raster_geom_mask`. -/
structure MaskOutput where
  shape : Nat × Nat × Nat
  out : MaskData
  transform : Affine
  warned : Bool

/-- Translation of `mask` from `rasterio/mask.py`. -/
def mask {σ : Type} (caps : Capabilities σ) (raster : Raster) (shapes : σ)
    (all_touched invert : Bool) (nodata : Option Int) (filled crop pad : Bool) :
    Except MaskError MaskOutput :=
  let nodataVal := effectiveNodata nodata raster.nodata
  match raster_geom_mask caps raster shapes all_touched invert crop pad with
  | .error err => .error err
  | .ok gm =>
    let height := gm.maskShape.1
    let width := gm.maskShape.2
    let out_shape := (raster.count, height, width)
    let rd := raster.read gm.window
    let composed : Nat → Nat → Nat → Bool := fun b i j => rd.2 b i j || gm.mask i j
    if filled then
      .ok ⟨out_shape,
           .filledData (fun b i j => if composed b i j then nodataVal else rd.1 b i j),
           gm.transform, gm.warned⟩
    else
      .ok ⟨out_shape, .maskedData rd.1 composed, gm.transform, gm.warned⟩

/-! Concrete instances used to exercise the definitions. -/

/-- Concrete north-up affine transform (row-scale coefficient `e = -1`). -/
def exAffine : Affine := ⟨1, 0, 2, 0, -1, 8⟩

/-- Concrete raster: 4 rows by 5 columns, two bands, nodata 7; pixel
`(b, i, j)` holds `b + 10*i + j`, and the source marks the pixel at global
position `(0, 0)` invalid in every band. -/
def exRaster : Raster where
  height := 4
  width := 5
  count := 2
  nodata := some 7
  transform := exAffine
  read := fun w =>
    match w with
    | some win =>
        (fun b i j => (b : Int) + 10 * ((win.row_off : Int) + i) + ((win.col_off : Int) + j),
         fun _ i j => decide (win.row_off + i = 0 ∧ win.col_off + j = 0))
    | none =>
        (fun b i j => (b : Int) + 10 * (i : Int) + (j : Int),
         fun _ i j => decide (i = 0 ∧ j = 0))

/-- Collaborators whose geometry window is always the degenerate sentinel. -/
def degCaps : Capabilities Unit where
  geometry_window := fun _ _ _ _ _ => ⟨0, 0, 0, 0⟩
  geometry_mask := fun _ _ invert _ _ => fun _ _ => invert

/-- Collaborators whose geometry window is a fixed non-degenerate window. -/
def winCaps : Capabilities Unit where
  geometry_window := fun _ _ _ _ _ => ⟨1, 1, 2, 3⟩
  geometry_mask := fun _ _ invert _ _ => fun i j => invert != decide (i = 0 ∧ j = 0)

/-- C2: with `crop = true` and `invert = true`, `raster_geom_mask` fails with
the configuration error for every raster, shape set and collaborator (the
collaborators are never consulted, so the failure precedes any computation),
and `mask` therefore fails the same way for every nodata/filled/pad choice. -/
theorem crop_invert_config_error {σ : Type} (caps : Capabilities σ) (raster : Raster)
    (shapes : σ) (all_touched pad : Bool) (nodata : Option Int) (filled : Bool) :
    raster_geom_mask caps raster shapes all_touched true true pad =
      .error .cropInvert ∧
    mask caps raster shapes all_touched true nodata filled true pad =
      .error .cropInvert := by
  exact ⟨rfl, rfl⟩

/-- C1 counterexample: for a shape set whose computed geometry window is the
degenerate sentinel, the call with `crop = true` and `invert = true` fails
with the configuration error, not the overlap error, so the claim as stated
(overlap error for every such call with `crop = true`) is false. -/
theorem degenerate_window_crop_counterexample :
    (degCaps.geometry_window exRaster () (decide (exRaster.transform.e ≤ 0))
        (padX true false) (padY true false)).flatten = (0, 0, 0, 0) ∧
    raster_geom_mask degCaps exRaster () false true true false =
      .error .cropInvert ∧
    raster_geom_mask degCaps exRaster () false true true false ≠
      .error .noOverlap := by
  refine ⟨rfl, rfl, fun h => ?_⟩
  exact nomatch Except.error.inj h

/-- C1 (amended): for every call whose computed geometry window is the
degenerate all-zero sentinel: with `crop = true` and `invert = false` the
call fails with the overlap error (when `invert` is also true, the
configuration error preempts it); with `crop = false` it emits the non-fatal
overlap warning and returns a full-raster mask constantly `!invert`, the
raster's native transform and no window. -/
theorem degenerate_window_behavior {σ : Type} (caps : Capabilities σ) (raster : Raster)
    (shapes : σ) (all_touched invert crop pad : Bool)
    (hdeg : (caps.geometry_window raster shapes (decide (raster.transform.e ≤ 0))
        (padX crop pad) (padY crop pad)).flatten = (0, 0, 0, 0)) :
    (crop = true → invert = false →
      raster_geom_mask caps raster shapes all_touched invert crop pad =
        .error .noOverlap) ∧
    (crop = true → invert = true →
      raster_geom_mask caps raster shapes all_touched invert crop pad =
        .error .cropInvert) ∧
    (crop = false →
      raster_geom_mask caps raster shapes all_touched invert crop pad =
        .ok ⟨fun _ _ => !invert, (raster.height, raster.width),
             raster.transform, none, true⟩) := by
  refine ⟨fun hc hi => ?_, fun hc hi => ?_, fun hc => ?_⟩ <;> subst hc
  · subst hi; simp [raster_geom_mask, hdeg]
  · subst hi; rfl
  · simp [raster_geom_mask, hdeg]

/-- Witness for `degenerate_window_behavior` at a concrete degenerate
instance with `crop = true`, `invert = false`. -/
theorem degenerate_window_behavior_witness :
    raster_geom_mask degCaps exRaster () false false true false =
      .error .noOverlap :=
  (degenerate_window_behavior degCaps exRaster () false false true false
    (by decide)).1 rfl rfl

/-- C3: every successful `raster_geom_mask` call with `crop = true` returns
the computed geometry window itself; its mask shape equals that window's
`(height, width)`, its transform is `raster.window_transform window` (the
window's pixel offset mapped through the native transform), and its mask is
rasterized at exactly that transform and shape. -/
theorem crop_returns_computed_window {σ : Type} (caps : Capabilities σ) (raster : Raster)
    (shapes : σ) (all_touched invert pad : Bool) (res : GeomMaskResult)
    (h : raster_geom_mask caps raster shapes all_touched invert true pad = .ok res) :
    res.window = some (caps.geometry_window raster shapes
      (decide (raster.transform.e ≤ 0)) (padX true pad) (padY true pad)) ∧
    ∀ w, res.window = some w →
      res.maskShape = (w.height, w.width) ∧
      res.transform = raster.window_transform w ∧
      res.mask = caps.geometry_mask shapes (raster.window_transform w) invert
        (w.height, w.width) all_touched := by
  cases invert with
  | true => exact absurd h (by simp [raster_geom_mask])
  | false =>
    rw [raster_geom_mask] at h
    simp only [Bool.and_false, Bool.false_eq_true, if_false] at h
    split at h
    · exact absurd h (by simp)
    · rw [if_pos trivial] at h
      injection h with h
      subst h
      refine ⟨rfl, fun w hw => ?_⟩
      injection hw with hw
      subst hw
      exact ⟨rfl, rfl, rfl⟩

/-- Concrete successful result of a `crop = true` call, used by the witness
of `crop_returns_computed_window`. -/
def exRes3 : GeomMaskResult :=
  (raster_geom_mask winCaps exRaster () false false true false).toOption.getD
    ⟨fun _ _ => false, (0, 0), exAffine, none, false⟩

/-- Witness for `crop_returns_computed_window` at a concrete instance. -/
theorem crop_returns_computed_window_witness :
    exRes3.window = some (winCaps.geometry_window exRaster ()
      (decide (exRaster.transform.e ≤ 0)) (padX true false) (padY true false)) :=
  (crop_returns_computed_window winCaps exRaster () false false false exRes3 rfl).1

/-- C4: with `crop = false` and a non-degenerate geometry window, the call
returns the raster's native transform, the full raster shape, a null window
and no warning, with the mask rasterized at the native transform and full
shape; moreover the result is unchanged under any other `geometry_window`
collaborator (whose window at these arguments is also non-degenerate), so
the computed window leaks into no component of the non-cropped output. -/
theorem no_crop_ignores_window {σ : Type} (caps : Capabilities σ) (raster : Raster)
    (shapes : σ) (all_touched invert pad : Bool)
    (hw : (caps.geometry_window raster shapes (decide (raster.transform.e ≤ 0))
        (padX false pad) (padY false pad)).flatten ≠ (0, 0, 0, 0)) :
    raster_geom_mask caps raster shapes all_touched invert false pad =
      .ok ⟨caps.geometry_mask shapes raster.transform invert
             (raster.height, raster.width) all_touched,
           (raster.height, raster.width), raster.transform, none, false⟩ ∧
    ∀ caps' : Capabilities σ, caps'.geometry_mask = caps.geometry_mask →
      (caps'.geometry_window raster shapes (decide (raster.transform.e ≤ 0))
          (padX false pad) (padY false pad)).flatten ≠ (0, 0, 0, 0) →
      raster_geom_mask caps' raster shapes all_touched invert false pad =
        raster_geom_mask caps raster shapes all_touched invert false pad := by
  have k : ∀ c : Capabilities σ,
      (c.geometry_window raster shapes (decide (raster.transform.e ≤ 0))
        (padX false pad) (padY false pad)).flatten ≠ (0, 0, 0, 0) →
      raster_geom_mask c raster shapes all_touched invert false pad =
        .ok ⟨c.geometry_mask shapes raster.transform invert
               (raster.height, raster.width) all_touched,
             (raster.height, raster.width), raster.transform, none, false⟩ := by
    intro c hc
    simp only [raster_geom_mask, Bool.false_and, Bool.false_eq_true, if_false]
    rw [if_neg hc]
  refine ⟨k caps hw, fun caps' hm hw' => ?_⟩
  rw [k caps' hw', k caps hw, hm]

/-- Witness for `no_crop_ignores_window` at a concrete instance. -/
theorem no_crop_ignores_window_witness :
    raster_geom_mask winCaps exRaster () false false false false =
      .ok ⟨winCaps.geometry_mask () exRaster.transform false
             (exRaster.height, exRaster.width) false,
           (exRaster.height, exRaster.width), exRaster.transform, none, false⟩ :=
  (no_crop_ignores_window winCaps exRaster () false false false (by decide)).1

/-- C5: with `filled = false`, `mask` returns the read pixel data together
with the composed exclusion mask, the pointwise logical OR of the source's
own invalid-pixel mask and the geometry mask broadcast across bands; hence a
pixel invalid in the source's nodata mask is excluded in the final output
whatever the geometry mask holds there. -/
theorem mask_composition_or {σ : Type} (caps : Capabilities σ) (raster : Raster)
    (shapes : σ) (all_touched invert : Bool) (nodata : Option Int) (crop pad : Bool)
    (gm : GeomMaskResult)
    (h : raster_geom_mask caps raster shapes all_touched invert crop pad = .ok gm) :
    mask caps raster shapes all_touched invert nodata false crop pad =
      .ok ⟨(raster.count, gm.maskShape.1, gm.maskShape.2),
           .maskedData (raster.read gm.window).1
             (fun b i j => (raster.read gm.window).2 b i j || gm.mask i j),
           gm.transform, gm.warned⟩ ∧
    ∀ b i j, (raster.read gm.window).2 b i j = true →
      ((raster.read gm.window).2 b i j || gm.mask i j) = true := by
  constructor
  · rw [mask, h]; rfl
  · intro b i j hb
    simp [hb]

/-- Concrete successful geometry-mask result of a `crop = false` call, used
by witnesses of the `mask`-level theorems. -/
def exGm : GeomMaskResult :=
  (raster_geom_mask winCaps exRaster () false false false false).toOption.getD
    ⟨fun _ _ => false, (0, 0), exAffine, none, false⟩

/-- Witness for `mask_composition_or` at a concrete instance. -/
theorem mask_composition_or_witness :
    mask winCaps exRaster () false false none false false false =
      .ok ⟨(exRaster.count, exGm.maskShape.1, exGm.maskShape.2),
           .maskedData (exRaster.read exGm.window).1
             (fun b i j => (exRaster.read exGm.window).2 b i j || exGm.mask i j),
           exGm.transform, exGm.warned⟩ :=
  (mask_composition_or winCaps exRaster () false false none false false exGm rfl).1

/-- C6: relative to any successful geometry-mask computation, `filled = true`
returns plain pixel data in which every composed-excluded position holds
exactly the effective nodata value and every other position the original
pixel value, while `filled = false` returns the original pixel data
unchanged together with the composed exclusion mask as a separate validity
flag. -/
theorem filled_semantics {σ : Type} (caps : Capabilities σ) (raster : Raster)
    (shapes : σ) (all_touched invert : Bool) (nodata : Option Int) (crop pad : Bool)
    (gm : GeomMaskResult)
    (h : raster_geom_mask caps raster shapes all_touched invert crop pad = .ok gm) :
    (mask caps raster shapes all_touched invert nodata true crop pad =
      .ok ⟨(raster.count, gm.maskShape.1, gm.maskShape.2),
           .filledData (fun b i j =>
             if (raster.read gm.window).2 b i j || gm.mask i j then
               effectiveNodata nodata raster.nodata
             else (raster.read gm.window).1 b i j),
           gm.transform, gm.warned⟩) ∧
    (mask caps raster shapes all_touched invert nodata false crop pad =
      .ok ⟨(raster.count, gm.maskShape.1, gm.maskShape.2),
           .maskedData (raster.read gm.window).1
             (fun b i j => (raster.read gm.window).2 b i j || gm.mask i j),
           gm.transform, gm.warned⟩) := by
  constructor
  · rw [mask, h]; rfl
  · rw [mask, h]; rfl

/-- Witness for `filled_semantics` at a concrete instance. -/
theorem filled_semantics_witness :
    mask winCaps exRaster () false false none true false false =
      .ok ⟨(exRaster.count, exGm.maskShape.1, exGm.maskShape.2),
           .filledData (fun b i j =>
             if (exRaster.read exGm.window).2 b i j || exGm.mask i j then
               effectiveNodata none exRaster.nodata
             else (exRaster.read exGm.window).1 b i j),
           exGm.transform, exGm.warned⟩ :=
  (filled_semantics winCaps exRaster () false false none false false exGm rfl).1

/-- C7: `raster_geom_mask` consults the geometry-window computation only at
the paddings `padX crop pad` and `padY crop pad` (collaborators agreeing
there, and on `geometry_mask`, produce equal results), and those paddings
are half a pixel on each axis precisely when both `crop` and `pad` are
true, and zero on both axes in every other combination. -/
theorem padding_iff {σ : Type} (caps caps' : Capabilities σ) (raster : Raster)
    (shapes : σ) (all_touched invert crop pad : Bool)
    (hm : caps'.geometry_mask = caps.geometry_mask)
    (hw : caps'.geometry_window raster shapes (decide (raster.transform.e ≤ 0))
        (padX crop pad) (padY crop pad) =
      caps.geometry_window raster shapes (decide (raster.transform.e ≤ 0))
        (padX crop pad) (padY crop pad)) :
    raster_geom_mask caps' raster shapes all_touched invert crop pad =
      raster_geom_mask caps raster shapes all_touched invert crop pad ∧
    ((padX crop pad = 1/2 ∧ padY crop pad = 1/2) ↔ (crop = true ∧ pad = true)) ∧
    (¬(crop = true ∧ pad = true) → padX crop pad = 0 ∧ padY crop pad = 0) := by
  refine ⟨by simp only [raster_geom_mask, hw, hm], ?_, ?_⟩
  · clear hw hm
    cases crop <;> cases pad <;> simp [padX, padY]
  · clear hw hm
    cases crop <;> cases pad <;> simp [padX, padY]

/-- Witness for `padding_iff` at a concrete instance with
`crop = true, pad = true`. -/
theorem padding_iff_witness :
    (padX true true = 1/2 ∧ padY true true = 1/2) ↔ (true = true ∧ true = true) :=
  (padding_iff winCaps winCaps exRaster () false false true true rfl rfl).2.1

/-- C8: the effective nodata value of a `mask` call resolves to the
caller-supplied value when one is given, else to the raster's own nodata
when that is set, else to zero; and at every composed-excluded position of a
`filled = true` call the returned data holds exactly that value. -/
theorem effective_nodata_resolution {σ : Type} (caps : Capabilities σ) (raster : Raster)
    (shapes : σ) (all_touched invert crop pad : Bool) (nodata : Option Int) (v : Int)
    (gm : GeomMaskResult)
    (h : raster_geom_mask caps raster shapes all_touched invert crop pad = .ok gm)
    (b i j : Nat)
    (hexc : ((raster.read gm.window).2 b i j || gm.mask i j) = true) :
    ∃ f, mask caps raster shapes all_touched invert nodata true crop pad =
        .ok ⟨(raster.count, gm.maskShape.1, gm.maskShape.2), .filledData f,
             gm.transform, gm.warned⟩ ∧
      f b i j = effectiveNodata nodata raster.nodata ∧
      (nodata = some v → f b i j = v) ∧
      (nodata = none → raster.nodata = some v → f b i j = v) ∧
      (nodata = none → raster.nodata = none → f b i j = 0) := by
  refine ⟨fun b i j =>
      if (raster.read gm.window).2 b i j || gm.mask i j then
        effectiveNodata nodata raster.nodata
      else (raster.read gm.window).1 b i j, ?_, ?_, ?_, ?_, ?_⟩
  · rw [mask, h]; rfl
  · simp [hexc]
  · intro hn; subst hn; simp [hexc, effectiveNodata]
  · intro hn hr; subst hn; simp [hexc, effectiveNodata, hr]
  · intro hn hr; subst hn; simp [hexc, effectiveNodata, hr]

/-- Concrete successful geometry-mask result of a degenerate-window call
with `crop = false`, used by the witness of `effective_nodata_resolution`. -/
def exGmDeg : GeomMaskResult :=
  (raster_geom_mask degCaps exRaster () false false false false).toOption.getD
    ⟨fun _ _ => false, (0, 0), exAffine, none, false⟩

/-- Witness for `effective_nodata_resolution` at a concrete instance. -/
theorem effective_nodata_resolution_witness :
    ∃ f, mask degCaps exRaster () false false none true false false =
        .ok ⟨(exRaster.count, exGmDeg.maskShape.1, exGmDeg.maskShape.2),
             .filledData f, exGmDeg.transform, exGmDeg.warned⟩ ∧
      f 0 0 0 = effectiveNodata none exRaster.nodata ∧
      ((none : Option Int) = some 7 → f 0 0 0 = 7) ∧
      ((none : Option Int) = none → exRaster.nodata = some 7 → f 0 0 0 = 7) ∧
      ((none : Option Int) = none → exRaster.nodata = none → f 0 0 0 = 0) :=
  effective_nodata_resolution degCaps exRaster () false false false false none 7
    exGmDeg rfl 0 0 0 (by decide)

/-- C9: `mask` is a pure function of its arguments in this embedding, so two
invocations with identical arguments against the same unchanged raster
source return identical output data and transform. -/
theorem mask_deterministic {σ : Type} (caps : Capabilities σ) (raster : Raster)
    (shapes : σ) (all_touched invert : Bool) (nodata : Option Int)
    (filled crop pad : Bool) :
    mask caps raster shapes all_touched invert nodata filled crop pad =
      mask caps raster shapes all_touched invert nodata filled crop pad := rfl

/-- C10: with a degenerate geometry window, `crop = false`, `invert = false`
and `filled = true`, every element of the returned data equals the
effective nodata value, in every band. -/
theorem no_overlap_filled_all_nodata {σ : Type} (caps : Capabilities σ) (raster : Raster)
    (shapes : σ) (all_touched pad : Bool) (nodata : Option Int)
    (hdeg : (caps.geometry_window raster shapes (decide (raster.transform.e ≤ 0))
        (padX false pad) (padY false pad)).flatten = (0, 0, 0, 0)) :
    ∃ f, mask caps raster shapes all_touched false nodata true false pad =
        .ok ⟨(raster.count, raster.height, raster.width), .filledData f,
             raster.transform, true⟩ ∧
      ∀ b i j, f b i j = effectiveNodata nodata raster.nodata := by
  have hg : raster_geom_mask caps raster shapes all_touched false false pad =
      .ok ⟨fun _ _ => true, (raster.height, raster.width),
           raster.transform, none, true⟩ := by
    simp [raster_geom_mask, hdeg]
  refine ⟨fun b i j =>
      if (raster.read (none : Option Window)).2 b i j || true then
        effectiveNodata nodata raster.nodata
      else (raster.read (none : Option Window)).1 b i j, ?_, ?_⟩
  · rw [mask, hg]; rfl
  · intro b i j; simp

/-- Witness for `no_overlap_filled_all_nodata` at a concrete instance. -/
theorem no_overlap_filled_all_nodata_witness :
    ∃ f, mask degCaps exRaster () false false none true false false =
        .ok ⟨(exRaster.count, exRaster.height, exRaster.width), .filledData f,
             exRaster.transform, true⟩ ∧
      ∀ b i j, f b i j = effectiveNodata none exRaster.nodata :=
  no_overlap_filled_all_nodata degCaps exRaster () false false none (by decide)

end Rasterio
